import Mathlib

/-!
# Verification of the ArtmoCon backend (src/index.js)

Shallow embedding of the Express/Mongoose backend in `src/index.js`.

The data store (MongoDB via Mongoose) is modelled as two in-memory lists kept
in insertion order: `Organization.create` / `Prompt.create` append, `findOne`
returns the first match in that order, `find` returns all matches in that
order, and `entry.save()` after mutating a fetched document writes the
mutation back in place.  JavaScript strings are `String`; JS numbers carried
by `rating` are `ℚ`; a JSON body field that may be absent is an `Option`.
JS truthiness of a string field (`!orgName`) is: present and non-empty.
The OpenAI chat-completion call is a parameter: a function from the message
pair sent to the returned text (the success path; provider failure is the 500
path, which carries no data and is not modelled).  Each route handler becomes
a pure function from request body and store to a response together with the
store after the request.
-/

/-- Mirror of organizationSchema (src/index.js lines 27-33). -/
structure Organization where
  orgName : String
  brandGuide : String
  goals : String
  personas : String
  stylePreferences : String
  deriving DecidableEq, Repr

/-- Mirror of promptSchema (src/index.js lines 35-41).  `rating` and
`feedback` are optional: absent until the rating handler sets them. -/
structure PromptRec where
  orgName : String
  prompt : String
  content : String
  rating : Option ℚ
  feedback : Option String
  deriving DecidableEq, Repr

/-- The two MongoDB collections, in insertion order. -/
structure Store where
  orgs : List Organization
  prompts : List PromptRec
  deriving DecidableEq, Repr

/-- JS truthiness of a possibly-absent string body field: `!x` is false
exactly when the field is present and non-empty. -/
def truthy : Option String → Bool
  | none => false
  | some s => !(s == "")

/-! ## POST /api/onboard (src/index.js lines 52-64) -/

/-- Body of `POST /api/onboard`. -/
structure OnboardBody where
  orgName : Option String
  brandGuide : Option String
  goals : Option String
  personas : Option String
  stylePreferences : Option String
  deriving DecidableEq, Repr

/-- Response of the onboarding handler: 400 or 200. -/
inductive OnboardResp where
  | badRequest
  | ok
  deriving DecidableEq, Repr

/-- Handler for POST /api/onboard (src/index.js lines 52-64): validate
presence of the five fields, then Organization.create (append). -/
def onboard (b : OnboardBody) (s : Store) : OnboardResp × Store :=
  if !truthy b.orgName || !truthy b.brandGuide || !truthy b.goals ||
      !truthy b.personas || !truthy b.stylePreferences then
    (OnboardResp.badRequest, s)
  else
    (OnboardResp.ok,
      { s with orgs := s.orgs ++
          [{ orgName := b.orgName.getD "", brandGuide := b.brandGuide.getD "",
             goals := b.goals.getD "", personas := b.personas.getD "",
             stylePreferences := b.stylePreferences.getD "" }] })

/-! ## POST /api/generate (src/index.js lines 67-95) -/

/-- Body of `POST /api/generate`. -/
structure GenBody where
  orgName : Option String
  prompt : Option String
  deriving DecidableEq, Repr

/-- The two-message exchange sent to `openai.chat.completions.create`:
the system message and the user message. -/
structure ProviderCall where
  systemMsg : String
  userMsg : String
  deriving DecidableEq, Repr

/-- Response of the generation handler: 400, 404, or 200 with the
generated content. -/
inductive GenResp where
  | badRequest
  | notFound
  | ok (content : String)
  deriving DecidableEq, Repr

/-- The `systemPrompt` template string built at src/index.js line 77:
interpolates the found organization's `brandGuide`, `goals` and
`stylePreferences` (and nothing else) into fixed text. -/
def systemPrompt (org : Organization) : String :=
  "You are a content strategist. Use the following brand details to generate helpful marketing content.\n\nBrand Guide: "
    ++ org.brandGuide ++ "\nGoals: " ++ org.goals ++ "\nStyle: " ++ org.stylePreferences

/-- Handler for POST /api/generate (src/index.js lines 67-95): validate,
Organization.findOne, build the system instruction, call the provider,
Prompt.create with the returned content, answer 200 with that content.
Also returns the provider call that was made, if any, so that what was
sent can be stated. -/
def generate (provider : ProviderCall → String) (b : GenBody) (s : Store) :
    GenResp × Store × Option ProviderCall :=
  if !truthy b.orgName || !truthy b.prompt then (GenResp.badRequest, s, none)
  else
    match s.orgs.find? (fun o => o.orgName == b.orgName.getD "") with
    | none => (GenResp.notFound, s, none)
    | some org =>
      let call : ProviderCall :=
        { systemMsg := systemPrompt org, userMsg := b.prompt.getD "" }
      let content := provider call
      (GenResp.ok content,
        { s with prompts := s.prompts ++
            [{ orgName := b.orgName.getD "", prompt := b.prompt.getD "",
               content := content, rating := none, feedback := none }] },
        some call)

/-! ## POST /api/rate (src/index.js lines 98-116) -/

/-- Body of `POST /api/rate`.  `rating = none` models a body whose `rating`
is absent or not numeric (`typeof rating !== 'number'`). -/
structure RateBody where
  orgName : Option String
  prompt : Option String
  rating : Option ℚ
  feedback : Option String
  deriving DecidableEq, Repr

/-- Response of the rating handler: 400, 404, or 200. -/
inductive RateResp where
  | badRequest
  | notFound
  | ok
  deriving DecidableEq, Repr

/-- Model of Prompt.findOne followed by mutation and save: replace the
first record satisfying `p` by its image under `f`; `none` when no record
matches. -/
def updateFirst (p : PromptRec → Bool) (f : PromptRec → PromptRec) :
    List PromptRec → Option (List PromptRec)
  | [] => none
  | x :: xs =>
    if p x then some (f x :: xs)
    else (updateFirst p f xs).map (fun l => x :: l)

/-- Handler for POST /api/rate (src/index.js lines 98-116): validate,
Prompt.findOne on the exact pair, overwrite `rating` and `feedback` on the
fetched entry, save. -/
def rate (b : RateBody) (s : Store) : RateResp × Store :=
  if !truthy b.orgName || !truthy b.prompt || b.rating.isNone then
    (RateResp.badRequest, s)
  else
    match updateFirst
        (fun q => q.orgName == b.orgName.getD "" && q.prompt == b.prompt.getD "")
        (fun q => { q with rating := b.rating, feedback := b.feedback })
        s.prompts with
    | none => (RateResp.notFound, s)
    | some ps => (RateResp.ok, { s with prompts := ps })

/-! ## GET /api/analytics/:orgName (src/index.js lines 119-139) -/

/-- One element of `last5Feedbacks`: a Prompt record reduced to
`prompt`, `rating`, `feedback`. -/
structure FeedbackEntry where
  prompt : String
  rating : Option ℚ
  feedback : Option String
  deriving DecidableEq, Repr

/-- Successful (200) analytics payload. -/
structure AnalyticsResp where
  totalGenerated : Nat
  averageRating : String
  last5Feedbacks : List FeedbackEntry
  deriving DecidableEq, Repr

/-- Left-pad a numeral below 100 to two digits. -/
def pad2 (n : Nat) : String :=
  if n < 10 then "0" ++ toString n else toString n

/-- Model of Number.prototype.toFixed(2), following ECMA-262: extract the
sign first, round the absolute value to the nearest hundredth with ties
picking the larger scaled integer (round half up), print the absolute
value with exactly two digits after the point, and prepend the minus sign
for a negative input — so negative ties round away from zero and a tiny
negative value prints as -0.00.  The scaled integer of the non-negative
`a` is `floor (a * 100 + 1 / 2)`, computed as the Euclidean quotient
`(200 * a.num + a.den) / (2 * a.den)` (the divisor is positive, so
Euclidean and floor division agree). -/
def toFixed2 (q : ℚ) : String :=
  let a : ℚ := if q < 0 then -q else q
  let n : Int := (200 * a.num + (a.den : Int)) / (2 * (a.den : Int))
  (if q < 0 then "-" else "") ++ toString (n / 100) ++ "." ++ pad2 (n.toNat % 100)

/-- Model of Prompt.find on an orgName: every matching record, in store
order. -/
def promptsFor (orgName : String) (s : Store) : List PromptRec :=
  s.prompts.filter (fun q => q.orgName == orgName)

/-- The summand at src/index.js line 125: the rating of the record, an
unset rating counting as 0 (a stored rating of 0 is also 0, so the
zero-filling disjunction of the source and `getD` agree). -/
def effRating (q : PromptRec) : ℚ :=
  q.rating.getD 0

/-- Handler for GET /api/analytics/:orgName (src/index.js lines 119-139):
Prompt.find, 404 (`none`) on an empty result, else count, zero-filled mean
formatted to two decimals, and the last five records mapped to the reduced
shape. -/
def analytics (orgName : String) (s : Store) : Option AnalyticsResp :=
  let prompts := promptsFor orgName s
  if prompts.length == 0 then none
  else
    some
      { totalGenerated := prompts.length,
        averageRating := toFixed2 ((prompts.map effRating).sum / (prompts.length : ℚ)),
        last5Feedbacks := (prompts.drop (prompts.length - 5)).map
          (fun q => { prompt := q.prompt, rating := q.rating, feedback := q.feedback }) }

/-! ## Helper lemmas -/

/-- A string body field is truthy exactly when it is present and
non-empty. -/
theorem truthy_eq_true_iff (x : Option String) :
    truthy x = true ↔ ∃ s, x = some s ∧ s ≠ "" := by
  cases x <;> simp [truthy]

/-- A successful `updateFirst` splits the list at the first match. -/
theorem updateFirst_eq_some {p : PromptRec → Bool} {f : PromptRec → PromptRec} :
    ∀ {l l' : List PromptRec}, updateFirst p f l = some l' →
      ∃ l1 x l2, l = l1 ++ x :: l2 ∧ l' = l1 ++ f x :: l2 ∧
        (∀ y ∈ l1, p y = false) ∧ p x = true := by
  intro l
  induction l with
  | nil => intro l' h; simp [updateFirst] at h
  | cons a as ih =>
    intro l' h
    by_cases ha : p a
    · rw [updateFirst, if_pos ha] at h
      exact ⟨[], a, as, rfl, by simpa using h.symm, by simp, ha⟩
    · rw [updateFirst, if_neg ha] at h
      rcases Option.map_eq_some'.mp h with ⟨l'', h1, h2⟩
      rcases ih h1 with ⟨l1, x, l2, e1, e2, e3, e4⟩
      refine ⟨a :: l1, x, l2, by simp [e1], by simp [← h2, e2], ?_, e4⟩
      intro y hy
      rcases List.mem_cons.mp hy with rfl | hy
      · simpa using ha
      · exact e3 y hy

/-- `updateFirst` fires at the first match of a split list. -/
theorem updateFirst_append {p : PromptRec → Bool} {f : PromptRec → PromptRec}
    {l1 : List PromptRec} {x : PromptRec} {l2 : List PromptRec}
    (h1 : ∀ y ∈ l1, p y = false) (hx : p x = true) :
    updateFirst p f (l1 ++ x :: l2) = some (l1 ++ f x :: l2) := by
  induction l1 with
  | nil => simp [updateFirst, hx]
  | cons a as ih =>
    have ha : p a = false := h1 a (by simp)
    have hrest := ih (fun y hy => h1 y (by simp [hy]))
    simp [updateFirst, ha, hrest]

/-- If nothing matches, `updateFirst` fails. -/
theorem updateFirst_eq_none {p : PromptRec → Bool} {f : PromptRec → PromptRec} :
    ∀ {l : List PromptRec}, l.find? p = none → updateFirst p f l = none := by
  intro l
  induction l with
  | nil => intro _; rfl
  | cons a as ih =>
    intro h
    rw [List.find?_cons] at h
    rcases hpa : p a with _ | _
    · rw [hpa] at h
      rw [updateFirst, if_neg (by simp [hpa]), ih h, Option.map_none']
    · rw [hpa] at h; cases h

/-- `find?` returns the head of the first matching split. -/
theorem find?_first_split {p : PromptRec → Bool} {l1 : List PromptRec}
    {x : PromptRec} {l2 : List PromptRec}
    (h1 : ∀ y ∈ l1, p y = false) (hx : p x = true) :
    (l1 ++ x :: l2).find? p = some x := by
  induction l1 with
  | nil => simp [List.find?_cons, hx]
  | cons a as ih =>
    have ha : p a = false := h1 a (by simp)
    have := ih (fun y hy => h1 y (by simp [hy]))
    simp [List.find?_cons, ha, this]

/-- Two splits of one list at a first match agree. -/
theorem first_split_unique {p : PromptRec → Bool} :
    ∀ {l1 : List PromptRec} {x : PromptRec} {l2 m1 : List PromptRec}
      {y : PromptRec} {m2 : List PromptRec},
      l1 ++ x :: l2 = m1 ++ y :: m2 →
      (∀ z ∈ l1, p z = false) → (∀ z ∈ m1, p z = false) →
      p x = true → p y = true →
      l1 = m1 ∧ x = y ∧ l2 = m2 := by
  intro l1
  induction l1 with
  | nil =>
    intro x l2 m1 y m2 he _ hm hx _
    cases m1 with
    | nil => simpa using he
    | cons b bs =>
      simp only [List.nil_append, List.cons_append, List.cons.injEq] at he
      exact absurd (he.1 ▸ hx) (by simp [hm b (by simp)])
  | cons a as ih =>
    intro x l2 m1 y m2 he hl hm hx hy
    cases m1 with
    | nil =>
      simp only [List.nil_append, List.cons_append, List.cons.injEq] at he
      exact absurd (he.1 ▸ hy) (by simp [hl a (by simp)])
    | cons b bs =>
      simp only [List.cons_append, List.cons.injEq] at he
      rcases ih he.2 (fun z hz => hl z (by simp [hz])) (fun z hz => hm z (by simp [hz])) hx hy
        with ⟨e1, e2, e3⟩
      exact ⟨by simp [he.1, e1], e2, e3⟩

/-- A 200 from the rating handler pins down everything: a valid body and
an in-place overwrite of `rating` and `feedback` on the first matching
record. -/
theorem rate_ok_decomp {b : RateBody} {s s' : Store}
    (h : rate b s = (RateResp.ok, s')) :
    ∃ o pr r l1 x l2,
      b.orgName = some o ∧ o ≠ "" ∧ b.prompt = some pr ∧ pr ≠ "" ∧
      b.rating = some r ∧
      s.prompts = l1 ++ x :: l2 ∧
      s'.prompts = l1 ++ { x with rating := some r, feedback := b.feedback } :: l2 ∧
      s'.orgs = s.orgs ∧
      (∀ y ∈ l1, (y.orgName == o && y.prompt == pr) = false) ∧
      x.orgName = o ∧ x.prompt = pr := by
  rw [rate] at h
  split at h
  · cases h
  case isFalse hc =>
    simp at hc
    rcases (truthy_eq_true_iff _).mp hc.1.1 with ⟨o, ho, ho'⟩
    rcases (truthy_eq_true_iff _).mp hc.1.2 with ⟨pr, hp, hp'⟩
    rcases Option.ne_none_iff_exists'.mp hc.2 with ⟨r, hr⟩
    rw [ho, hp, hr] at h
    split at h
    · cases h
    case h_2 ps hps =>
      rcases updateFirst_eq_some hps with ⟨l1, x, l2, e1, e2, e3, e4⟩
      have hx : x.orgName = o ∧ x.prompt = pr := by
        simp only [Option.getD_some, Bool.and_eq_true, beq_iff_eq] at e4
        exact e4
      refine ⟨o, pr, r, l1, x, l2, ho, ho', hp, hp', hr, e1, ?_, ?_, ?_, hx.1, hx.2⟩
      · cases h; simpa [hr] using e2
      · cases h; rfl
      · intro y hy
        simpa using e3 y hy

/-! ## Claim theorems: the rating handler -/

/-- **C10.** For every valid rating request that finds a matching Prompt
record, only that record changes and only its `rating` and `feedback`
fields do: organizations and all other prompt records stay in place,
`orgName`, `prompt` and `content` of the matched record are unchanged,
`rating` becomes the request's rating, and `feedback` is overwritten with
exactly the request's `feedback` field — in particular a request without
`feedback` erases any previously stored feedback. -/
theorem rate_frame {b : RateBody} {s s' : Store}
    (h : rate b s = (RateResp.ok, s')) :
    s'.orgs = s.orgs ∧
    ∃ r l1 x x' l2, b.rating = some r ∧
      s.prompts = l1 ++ x :: l2 ∧
      s'.prompts = l1 ++ x' :: l2 ∧
      x'.orgName = x.orgName ∧ x'.prompt = x.prompt ∧ x'.content = x.content ∧
      x'.rating = some r ∧ x'.feedback = b.feedback ∧
      (b.feedback = none → x'.feedback = none) := by
  rcases rate_ok_decomp h with
    ⟨o, pr, r, l1, x, l2, _, _, _, _, hr, hs, hs', horgs, _, _, _⟩
  exact ⟨horgs, r, l1, x, { x with rating := some r, feedback := b.feedback }, l2,
    hr, hs, hs', rfl, rfl, rfl, rfl, rfl, fun hf => hf⟩

/-- Store with a single already-generated prompt record carrying an old
feedback text, used as concrete input for the rating claims. -/
def rateStore : Store :=
  { orgs := [],
    prompts := [{ orgName := "acme", prompt := "p1", content := "c1",
                  rating := none, feedback := some "old" }] }

/-- First concrete rating request: rating 4, feedback present. -/
def rateBody1 : RateBody :=
  { orgName := some "acme", prompt := some "p1", rating := some 4,
    feedback := some "good" }

/-- Second concrete rating request on the same pair: rating 2, no
feedback field. -/
def rateBody2 : RateBody :=
  { orgName := some "acme", prompt := some "p1", rating := some 2,
    feedback := none }

/-- Witness for rate_frame: rating the stored record with a body that has
no `feedback` field keeps everything but `rating`/`feedback` and erases
the stored feedback text. -/
theorem rate_frame_witness :
    (rate rateBody2 rateStore).2.orgs = rateStore.orgs ∧
    ∃ r l1 x x' l2, rateBody2.rating = some r ∧
      rateStore.prompts = l1 ++ x :: l2 ∧
      (rate rateBody2 rateStore).2.prompts = l1 ++ x' :: l2 ∧
      x'.orgName = x.orgName ∧ x'.prompt = x.prompt ∧ x'.content = x.content ∧
      x'.rating = some r ∧ x'.feedback = rateBody2.feedback ∧
      (rateBody2.feedback = none → x'.feedback = none) :=
  rate_frame (by decide)

/-- **C4.** A successful rating request overwrites the first matching
record in place, so the prompt list analytics reads contains the new
values, and a second successful rating request on the same pair hits the
same record and leaves only the second request's rating and feedback:
after both, the first match of the pair holds the second body's values,
and that record is among the records analytics retrieves for the
organization. -/
theorem rate_last_write_wins {b b' : RateBody} {s s' s'' : Store} {o pr : String}
    (hbo : b.orgName = some o) (hbo' : b'.orgName = some o)
    (hbp : b.prompt = some pr) (hbp' : b'.prompt = some pr)
    (h1 : rate b s = (RateResp.ok, s')) (h2 : rate b' s' = (RateResp.ok, s'')) :
    ∃ r r' l1 x l2, b.rating = some r ∧ b'.rating = some r' ∧
      s.prompts = l1 ++ x :: l2 ∧
      s'.prompts = l1 ++ { x with rating := some r, feedback := b.feedback } :: l2 ∧
      s''.prompts = l1 ++ { x with rating := some r', feedback := b'.feedback } :: l2 ∧
      s'.prompts.find? (fun q => q.orgName == o && q.prompt == pr) =
        some { x with rating := some r, feedback := b.feedback } ∧
      s''.prompts.find? (fun q => q.orgName == o && q.prompt == pr) =
        some { x with rating := some r', feedback := b'.feedback } ∧
      { x with rating := some r', feedback := b'.feedback } ∈ promptsFor o s'' := by
  rcases rate_ok_decomp h1 with
    ⟨o1, p1, r, l1, x, l2, e_bo, _, e_bp, _, e_br, e_s, e_s', _, e_pref, e_xo, e_xp⟩
  have eo1 : o1 = o := Option.some.inj (e_bo.symm.trans hbo)
  have ep1 : p1 = pr := Option.some.inj (e_bp.symm.trans hbp)
  rw [eo1] at e_pref e_xo
  rw [ep1] at e_pref e_xp
  rcases rate_ok_decomp h2 with
    ⟨o2, p2, r', m1, y, m2, f_bo, _, f_bp, _, f_br, f_s, f_s', _, f_pref, f_yo, f_yp⟩
  have eo2 : o2 = o := Option.some.inj (f_bo.symm.trans hbo')
  have ep2 : p2 = pr := Option.some.inj (f_bp.symm.trans hbp')
  rw [eo2] at f_pref f_yo
  rw [ep2] at f_pref f_yp
  have hx' : (fun q : PromptRec => q.orgName == o && q.prompt == pr)
      { x with rating := some r, feedback := b.feedback } = true := by
    simp [e_xo, e_xp]
  have huniq := first_split_unique (e_s'.symm.trans f_s) e_pref f_pref hx'
    (by simpa using And.intro f_yo f_yp)
  rcases huniq with ⟨rfl, rfl, rfl⟩
  refine ⟨r, r', l1, x, l2, e_br, f_br, e_s, e_s', f_s', ?_, ?_, ?_⟩
  · rw [e_s']
    exact find?_first_split e_pref hx'
  · rw [f_s']
    exact find?_first_split e_pref (by simp [e_xo, e_xp])
  · rw [promptsFor, f_s']
    exact List.mem_filter.mpr ⟨by simp, by simp [e_xo]⟩

/-- Witness for rate_last_write_wins: rating the stored record with 4 and
feedback, then with 2 and no feedback, leaves the record holding rating 2
and no feedback. -/
theorem rate_last_write_wins_witness :
    ∃ r r' l1 x l2, rateBody1.rating = some r ∧ rateBody2.rating = some r' ∧
      rateStore.prompts = l1 ++ x :: l2 ∧
      (rate rateBody1 rateStore).2.prompts =
        l1 ++ { x with rating := some r, feedback := rateBody1.feedback } :: l2 ∧
      (rate rateBody2 (rate rateBody1 rateStore).2).2.prompts =
        l1 ++ { x with rating := some r', feedback := rateBody2.feedback } :: l2 ∧
      (rate rateBody1 rateStore).2.prompts.find?
          (fun q => q.orgName == "acme" && q.prompt == "p1") =
        some { x with rating := some r, feedback := rateBody1.feedback } ∧
      (rate rateBody2 (rate rateBody1 rateStore).2).2.prompts.find?
          (fun q => q.orgName == "acme" && q.prompt == "p1") =
        some { x with rating := some r', feedback := rateBody2.feedback } ∧
      { x with rating := some r', feedback := rateBody2.feedback } ∈
        promptsFor "acme" (rate rateBody2 (rate rateBody1 rateStore).2).2 :=
  rate_last_write_wins rfl rfl rfl rfl (by decide) (by decide)

/-- **C6.** The rating handler answers 400 exactly when `orgName` or
`prompt` is missing/empty or `rating` is not numeric; when validation
passes but no record matches the pair exactly it answers 404; and in both
error cases the store is returned unchanged. -/
theorem rate_errors (b : RateBody) (s : Store) :
    ((rate b s).1 = RateResp.badRequest ↔
      truthy b.orgName = false ∨ truthy b.prompt = false ∨ b.rating = none) ∧
    (∀ o pr, b.orgName = some o → o ≠ "" → b.prompt = some pr → pr ≠ "" →
      b.rating ≠ none →
      s.prompts.find? (fun q => q.orgName == o && q.prompt == pr) = none →
      rate b s = (RateResp.notFound, s)) ∧
    ((rate b s).1 ≠ RateResp.ok → (rate b s).2 = s) := by
  refine ⟨?_, ?_, ?_⟩
  · rw [rate]
    split
    case isTrue hc =>
      simp only [true_iff]
      rcases ho : truthy b.orgName with _ | _
      · exact Or.inl rfl
      rcases hp : truthy b.prompt with _ | _
      · exact Or.inr (Or.inl rfl)
      rw [ho, hp] at hc
      simp at hc
      exact Or.inr (Or.inr hc)
    case isFalse hc =>
      simp at hc
      constructor
      · intro hbad
        exfalso
        split at hbad
        · cases hbad
        · cases hbad
      · intro hv
        rcases hv with hv | hv | hv
        · rw [hc.1.1] at hv; cases hv
        · rw [hc.1.2] at hv; cases hv
        · exact absurd hv hc.2
  · intro o pr ho ho' hp hp' hr hfind
    rw [rate, if_neg (by simp [ho, hp, truthy, ho', hp', Option.isNone_iff_eq_none, hr])]
    rw [ho, hp]
    simp only [Option.getD_some]
    rw [updateFirst_eq_none hfind]
  · intro hne
    by_cases hc : (!truthy b.orgName || !truthy b.prompt || b.rating.isNone) = true
    · rw [rate, if_pos hc]
    · rw [rate, if_neg hc] at hne ⊢
      rcases hu : updateFirst
          (fun q => q.orgName == b.orgName.getD "" && q.prompt == b.prompt.getD "")
          (fun q => { q with rating := b.rating, feedback := b.feedback })
          s.prompts with _ | ps
      · rfl
      · rw [hu] at hne
        simp at hne

/-- Store with no records at all. -/
def emptyStore : Store := { orgs := [], prompts := [] }

/-- Concrete rating request whose rating field is not numeric. -/
def rateBad : RateBody :=
  { orgName := some "acme", prompt := some "p1", rating := none, feedback := none }

/-- Witness for rate_errors: a non-numeric rating yields 400 leaving the
store alone, and a valid rating for a pair with no record yields 404. -/
theorem rate_errors_witness :
    (rate rateBad rateStore).1 = RateResp.badRequest ∧
    rate rateBody1 emptyStore = (RateResp.notFound, emptyStore) ∧
    (rate rateBad rateStore).2 = rateStore := by
  refine ⟨(rate_errors rateBad rateStore).1.mpr (Or.inr (Or.inr rfl)), ?_, ?_⟩
  · exact (rate_errors rateBody1 emptyStore).2.1 "acme" "p1" rfl (by decide) rfl
      (by decide) (by decide) rfl
  · exact (rate_errors rateBad rateStore).2.2 (by decide)

/-! ## Claim theorems: the generation handler -/

/-- **C1.** For a generation request with both fields present whose
organization is found, a provider success returning text T yields 200 with
that content and appends exactly one new Prompt record carrying the
request's `orgName` and `prompt`, content T, and unset `rating` and
`feedback`. -/
theorem generate_ok (provider : ProviderCall → String) (b : GenBody) (s : Store)
    (o p : String) (org : Organization)
    (ho : b.orgName = some o) (ho' : o ≠ "") (hp : b.prompt = some p) (hp' : p ≠ "")
    (hfind : s.orgs.find? (fun g => g.orgName == o) = some org) :
    generate provider b s =
      (GenResp.ok (provider { systemMsg := systemPrompt org, userMsg := p }),
        { s with prompts := s.prompts ++
            [{ orgName := o, prompt := p,
               content := provider { systemMsg := systemPrompt org, userMsg := p },
               rating := none, feedback := none }] },
        some { systemMsg := systemPrompt org, userMsg := p }) := by
  rw [generate, if_neg (by simp [ho, hp, truthy, ho', hp']), ho, hp]
  simp only [Option.getD_some]
  rw [hfind]

/-- Concrete organization used by the generation claims. -/
def org1 : Organization :=
  { orgName := "acme", brandGuide := "bg", goals := "g", personas := "pe",
    stylePreferences := "st" }

/-- Store holding exactly the organization org1 and no prompts. -/
def genStore : Store := { orgs := [org1], prompts := [] }

/-- Concrete generation request for the existing organization. -/
def genBody1 : GenBody := { orgName := some "acme", prompt := some "write" }

/-- Stubbed provider returning the fixed text T. -/
def provider1 : ProviderCall → String := fun _ => "T"

/-- Witness for generate_ok: generating for org1 with the stubbed
provider yields 200 with content T and persists exactly one record. -/
theorem generate_ok_witness :
    generate provider1 genBody1 genStore =
      (GenResp.ok "T",
        { genStore with prompts := [{ orgName := "acme", prompt := "write",
                                      content := "T", rating := none,
                                      feedback := none }] },
        some { systemMsg := systemPrompt org1, userMsg := "write" }) := by
  have h := generate_ok provider1 genBody1 genStore "acme" "write" org1 rfl
    (by decide) rfl (by decide) (by decide)
  exact h

/-- **C7.** A generation request with both fields present whose orgName
matches no organization yields 404, changes nothing in the store, and
makes no provider call. -/
theorem generate_not_found (provider : ProviderCall → String) (b : GenBody) (s : Store)
    (o p : String)
    (ho : b.orgName = some o) (ho' : o ≠ "") (hp : b.prompt = some p) (hp' : p ≠ "")
    (hfind : s.orgs.find? (fun g => g.orgName == o) = none) :
    generate provider b s = (GenResp.notFound, s, none) := by
  rw [generate, if_neg (by simp [ho, hp, truthy, ho', hp']), ho]
  simp only [Option.getD_some]
  rw [hfind]

/-- Concrete generation request naming an organization that was never
onboarded. -/
def genBody2 : GenBody := { orgName := some "ghost", prompt := some "write" }

/-- Witness for generate_not_found at a concrete input. -/
theorem generate_not_found_witness :
    generate provider1 genBody2 genStore = (GenResp.notFound, genStore, none) :=
  generate_not_found provider1 genBody2 genStore "ghost" "write" rfl (by decide)
    rfl (by decide) (by decide)

/-- **C3.** Whenever the generation handler makes a provider call, the
system instruction it sends is the fixed template interpolating exactly
the found organization's `brandGuide`, `goals` and `stylePreferences`
(the user message being the request's prompt); and the template never
depends on any organization's `personas` field. -/
theorem generate_personas_unused (provider : ProviderCall → String) (b : GenBody)
    (s : Store) (c : ProviderCall)
    (h : (generate provider b s).2.2 = some c) :
    (∃ org, s.orgs.find? (fun g => g.orgName == b.orgName.getD "") = some org ∧
      c.systemMsg = systemPrompt org ∧ c.userMsg = b.prompt.getD "") ∧
    (∀ org pe, systemPrompt { org with personas := pe } = systemPrompt org) := by
  refine ⟨?_, fun org pe => rfl⟩
  rw [generate] at h
  split at h
  · cases h
  · split at h
    · cases h
    case h_2 org hfind =>
      have hc := Option.some.inj h
      exact ⟨org, hfind, by rw [← hc], by rw [← hc]⟩

/-- The provider call the concrete generation request triggers. -/
def call1 : ProviderCall := { systemMsg := systemPrompt org1, userMsg := "write" }

/-- Witness for generate_personas_unused: the call sent for genBody1
carries the template over org1. -/
theorem generate_personas_unused_witness :
    ∃ org, genStore.orgs.find? (fun g => g.orgName == genBody1.orgName.getD "") =
        some org ∧
      call1.systemMsg = systemPrompt org ∧ call1.userMsg = genBody1.prompt.getD "" :=
  (generate_personas_unused provider1 genBody1 genStore call1 (by decide)).1

/-! ## Claim theorems: the onboarding handler -/

/-- **C5.** A successful onboarding appends exactly one Organization
record carrying the five supplied values, all five being non-empty, and
no handler ever updates or deletes an Organization record: generation and
rating leave the organization list untouched, and onboarding itself
either leaves it untouched or appends one record. -/
theorem onboard_creates_once (b : OnboardBody) (s : Store) :
    (∀ o bg g pe st, b.orgName = some o → b.brandGuide = some bg → b.goals = some g →
      b.personas = some pe → b.stylePreferences = some st →
      o ≠ "" → bg ≠ "" → g ≠ "" → pe ≠ "" → st ≠ "" →
      onboard b s = (OnboardResp.ok,
        { s with orgs := s.orgs ++ [{ orgName := o, brandGuide := bg, goals := g,
                                      personas := pe, stylePreferences := st }] })) ∧
    (∀ provider gb, (generate provider gb s).2.1.orgs = s.orgs) ∧
    (∀ rb, (rate rb s).2.orgs = s.orgs) ∧
    ((onboard b s).2.orgs = s.orgs ∨
      (onboard b s).2.orgs = s.orgs ++ [{ orgName := b.orgName.getD "",
                                          brandGuide := b.brandGuide.getD "",
                                          goals := b.goals.getD "",
                                          personas := b.personas.getD "",
                                          stylePreferences := b.stylePreferences.getD "" }]) := by
  refine ⟨?_, ?_, ?_, ?_⟩
  · intro o bg g pe st h1 h2 h3 h4 h5 n1 n2 n3 n4 n5
    rw [onboard, if_neg (by simp [truthy, h1, h2, h3, h4, h5, n1, n2, n3, n4, n5])]
    rw [h1, h2, h3, h4, h5]
    rfl
  · intro provider gb
    rw [generate]
    split
    · rfl
    · split
      · rfl
      · rfl
  · intro rb
    rw [rate]
    split
    · rfl
    · split
      · rfl
      · rfl
  · rw [onboard]
    split
    · exact Or.inl rfl
    · exact Or.inr rfl

/-- Concrete complete onboarding request matching org1. -/
def onboardBody1 : OnboardBody :=
  { orgName := some "acme", brandGuide := some "bg", goals := some "g",
    personas := some "pe", stylePreferences := some "st" }

/-- Witness for onboard_creates_once at concrete inputs: onboarding
org1's data into an empty store creates exactly that record, and the
other handlers leave organizations alone. -/
theorem onboard_creates_once_witness :
    onboard onboardBody1 emptyStore =
      (OnboardResp.ok, { emptyStore with orgs := [org1] }) ∧
    (generate provider1 genBody1 genStore).2.1.orgs = genStore.orgs ∧
    (rate rateBody1 rateStore).2.orgs = rateStore.orgs := by
  refine ⟨?_, (onboard_creates_once onboardBody1 genStore).2.1 provider1 genBody1,
    (onboard_creates_once onboardBody1 rateStore).2.2.1 rateBody1⟩
  exact (onboard_creates_once onboardBody1 emptyStore).1 "acme" "bg" "g" "pe" "st"
    rfl rfl rfl rfl rfl (by decide) (by decide) (by decide) (by decide) (by decide)

/-- **C8.** An onboarding request with any of the five fields missing or
empty yields 400 and leaves the store unchanged. -/
theorem onboard_bad_request (b : OnboardBody) (s : Store)
    (h : truthy b.orgName = false ∨ truthy b.brandGuide = false ∨
      truthy b.goals = false ∨ truthy b.personas = false ∨
      truthy b.stylePreferences = false) :
    onboard b s = (OnboardResp.badRequest, s) := by
  rw [onboard, if_pos]
  rcases h with h | h | h | h | h <;> simp [h]

/-- Concrete onboarding request with the personas field absent. -/
def onboardBad : OnboardBody :=
  { orgName := some "acme", brandGuide := some "bg", goals := some "g",
    personas := none, stylePreferences := some "st" }

/-- Witness for onboard_bad_request at a concrete input. -/
theorem onboard_bad_request_witness :
    onboard onboardBad emptyStore = (OnboardResp.badRequest, emptyStore) :=
  onboard_bad_request onboardBad emptyStore (by decide)

/-! ## Claim theorems: the analytics handler -/

/-- Padding a numeral below 100 gives exactly two digits. -/
theorem pad2_length (n : Nat) (h : n < 100) : (pad2 n).length = 2 := by
  interval_cases n <;> rfl

/-- The text toFixed2 produces always ends in a point followed by exactly
two digits. -/
theorem toFixed2_two_decimals (q : ℚ) :
    ∃ w f, toFixed2 q = w ++ "." ++ f ∧ f.length = 2 := by
  simp only [toFixed2]
  exact ⟨_, _, rfl, pad2_length _ (Nat.mod_lt _ (by norm_num))⟩

/-- **C2.** For every organization with at least one matching record, the
analytics payload counts the matching records and reports as averageRating
the arithmetic mean over all of them of the rating-or-zero value,
formatted to exactly two decimal places as text. -/
theorem analytics_average (o : String) (s : Store) (h : promptsFor o s ≠ []) :
    ∃ resp, analytics o s = some resp ∧
      resp.totalGenerated = (promptsFor o s).length ∧
      resp.averageRating =
        toFixed2 (((promptsFor o s).map effRating).sum / ((promptsFor o s).length : ℚ)) ∧
      ∃ w f, resp.averageRating = w ++ "." ++ f ∧ f.length = 2 := by
  rw [analytics]
  simp only [beq_iff_eq, List.length_eq_zero]
  rw [if_neg h]
  exact ⟨_, rfl, rfl, rfl, toFixed2_two_decimals _⟩

/-- Store with three generated records for one organization carrying
ratings 4, unset, and 2. -/
def analyticsStore : Store :=
  { orgs := [],
    prompts := [{ orgName := "acme", prompt := "p1", content := "c1",
                  rating := some 4, feedback := none },
                { orgName := "acme", prompt := "p2", content := "c2",
                  rating := none, feedback := none },
                { orgName := "acme", prompt := "p3", content := "c3",
                  rating := some 2, feedback := none }] }

/-- Witness for analytics_average: ratings 4, unset, 2 give
totalGenerated 3 and averageRating printed as 2.00. -/
theorem analytics_average_witness :
    ∃ resp, analytics "acme" analyticsStore = some resp ∧
      resp.totalGenerated = 3 ∧ resp.averageRating = "2.00" := by
  obtain ⟨resp, h1, h2, h3, _⟩ := analytics_average "acme" analyticsStore (by decide)
  refine ⟨resp, h1, h2.trans (by decide), h3.trans ?_⟩
  have hm : (promptsFor "acme" analyticsStore).map effRating = [4, 0, 2] := by decide
  have hl : (promptsFor "acme" analyticsStore).length = 3 := by decide
  rw [hm, hl]
  have hsum : ([4, 0, 2] : List ℚ).sum / ((3 : Nat) : ℚ) = 2 := by
    norm_num [List.sum_cons, List.sum_nil]
  rw [hsum]
  decide

/-- **C9.** Analytics answers 404 exactly when no record matches;
otherwise 200 where last5Feedbacks has length min(5, totalGenerated) and
is exactly the tail of the retrieval order past all but five records,
each reduced to prompt, rating and feedback. -/
theorem analytics_shape (o : String) (s : Store) :
    (promptsFor o s = [] → analytics o s = none) ∧
    (promptsFor o s ≠ [] → ∃ resp, analytics o s = some resp ∧
      resp.totalGenerated = (promptsFor o s).length ∧
      resp.last5Feedbacks.length = min 5 resp.totalGenerated ∧
      resp.last5Feedbacks =
        ((promptsFor o s).drop ((promptsFor o s).length - 5)).map
          (fun q => { prompt := q.prompt, rating := q.rating,
                      feedback := q.feedback })) := by
  constructor
  · intro h
    rw [analytics]
    simp [h]
  · intro h
    rw [analytics]
    simp only [beq_iff_eq, List.length_eq_zero]
    rw [if_neg h]
    refine ⟨_, rfl, rfl, ?_, rfl⟩
    simp only [List.length_map, List.length_drop]
    omega

/-- Store with seven generated records for one organization. -/
def analyticsStore7 : Store :=
  { orgs := [],
    prompts := [⟨"big", "p1", "c1", none, none⟩, ⟨"big", "p2", "c2", none, none⟩,
                ⟨"big", "p3", "c3", none, none⟩, ⟨"big", "p4", "c4", none, none⟩,
                ⟨"big", "p5", "c5", none, none⟩, ⟨"big", "p6", "c6", none, none⟩,
                ⟨"big", "p7", "c7", none, none⟩] }

/-- Witness for analytics_shape: an organization with no records gets
404, and one with seven records gets last5Feedbacks of length
min 5 7 = 5. -/
theorem analytics_shape_witness :
    analytics "nobody" analyticsStore7 = none ∧
    ∃ resp, analytics "big" analyticsStore7 = some resp ∧
      resp.totalGenerated = 7 ∧ resp.last5Feedbacks.length = min 5 7 := by
  refine ⟨(analytics_shape "nobody" analyticsStore7).1 (by decide), ?_⟩
  obtain ⟨resp, h1, h2, h3, _⟩ := (analytics_shape "big" analyticsStore7).2 (by decide)
  refine ⟨resp, h1, h2.trans (by decide), ?_⟩
  rw [h3, h2]
  decide
